import Mathlib

/-!
Verification of the MerossIot protocol engine and device-state model.

Shallow embedding of the Python sources under meross_iot/: the manager
(correlation of requests to pending futures, message dispatch, device
registry), the base device model (accessors, channel lookup), the hub and
subordinate device model (delegated refresh, effective online status) and
the system-online capability mixin (push interpretation).

Python dictionaries parsed from JSON are modelled by JVal; fallible Python
evaluation (AttributeError, TypeError, ValueError, the library exceptions)
is modelled by Except PyErr.
-/

set_option maxHeartbeats 1000000

namespace MerossIot

/-- JSON-like values, the shape returned by json.loads: None, booleans,
integers, strings, lists and string-keyed dictionaries. -/
inductive JVal where
  | null : JVal
  | bool (b : Bool) : JVal
  | num (n : Int) : JVal
  | str (s : String) : JVal
  | arr (elems : List JVal) : JVal
  | obj (fields : List (String × JVal)) : JVal

/-- Exceptions a modelled Python evaluation can raise: the builtin
AttributeError, TypeError, KeyError and ValueError, plus the library
exceptions of meross_iot.model.exception (UnconnectedError,
CommandTimeoutError, CommandError carrying the device-reported payload).
The exception classes live in meross_iot/model/exception.py, which is not
among the staged files; they are bare data carriers here. -/
inductive PyErr where
  | attributeError : PyErr
  | typeError : PyErr
  | keyError : PyErr
  | valueError : PyErr
  | unconnectedError : PyErr
  | commandTimeoutError : PyErr
  | commandError (payload : JVal) : PyErr

/-- First value bound to the key in an association list, as a Python dict
lookup on the ordered key-value pairs of a parsed JSON object. -/
def alookup {α : Type} : List (String × α) → String → Option α
  | [], _ => none
  | (k, v) :: rest, key => if k = key then some v else alookup rest key

/-- Python d.get(key): on a dict it returns the bound value, or None when
the key is absent; on any other JSON-parsed value (None, list, string,
number, boolean) the attribute get does not exist and AttributeError is
raised. -/
def pyGet : JVal → String → Except PyErr JVal
  | .obj fields, key => .ok ((alookup fields key).getD .null)
  | _, _ => .error .attributeError

/-- Python d[key] indexing: KeyError when a dict lacks the key, TypeError
when the value is not indexable by a string. -/
def pyIndex : JVal → String → Except PyErr JVal
  | .obj fields, key =>
    match alookup fields key with
    | some v => .ok v
    | none => .error .keyError
  | _, _ => .error .keyError

/-- Python attribute access value.attr on a value parsed from JSON: none of
dict, list, str, int, bool or None carries such a data attribute, so the
access raises AttributeError. Used for the expression message.payload in
MerossManager, where message is the dict returned by json.loads. -/
def pyAttr : JVal → String → Except PyErr JVal :=
  fun _ _ => .error .attributeError

/-- Modelled from the spec: the OnlineStatus enumeration of
meross_iot/model/enums.py is not among the staged files. The spec lists
the statuses as unknown, online, offline and an extra code; the sources
use code -1 as the unknown default (BaseDevice) and code 1 for online
(push scenario). -/
inductive OnlineStatus where
  | unknown : OnlineStatus
  | notOnline : OnlineStatus
  | online : OnlineStatus
  | offline : OnlineStatus
deriving DecidableEq

/-- Modelled from the spec: integer codes of the OnlineStatus enumeration
(-1 unknown, 0 the extra not-online code, 1 online, 2 offline); any other
code is not a member and the enum constructor raises ValueError. -/
def OnlineStatus.fromCode : Int → Option OnlineStatus
  | -1 => some .unknown
  | 0 => some .notOnline
  | 1 => some .online
  | 2 => some .offline
  | _ => none

/-- Python OnlineStatus(x) on a JSON value: only a member integer code
yields a status, anything else raises ValueError. -/
def onlineStatusOfJVal : JVal → Except PyErr OnlineStatus
  | .num n =>
    match OnlineStatus.fromCode n with
    | some s => .ok s
    | none => .error .valueError
  | _ => .error .valueError

/-- Modelled from the spec: the Namespace enumeration of
meross_iot/model/enums.py is not among the staged files; the constructors
cover the members the staged sources reference. -/
inductive Namespace where
  | systemAll : Namespace
  | systemOnline : Namespace
  | systemAbility : Namespace
  | garageDoorState : Namespace
  | hubOnline : Namespace
  | hubSensorAll : Namespace
  | hubMts100All : Namespace
  | hubToggleX : Namespace
deriving DecidableEq

/-- Modelled from the spec: the protocol string of each namespace member
(wire examples such as Appliance.System.All appear in the spec). -/
def Namespace.value : Namespace → String
  | .systemAll => "Appliance.System.All"
  | .systemOnline => "Appliance.System.Online"
  | .systemAbility => "Appliance.System.Ability"
  | .garageDoorState => "Appliance.GarageDoor.State"
  | .hubOnline => "Appliance.Hub.Online"
  | .hubSensorAll => "Appliance.Hub.Sensor.All"
  | .hubMts100All => "Appliance.Hub.Mts100.All"
  | .hubToggleX => "Appliance.Hub.ToggleX"

/-- Python namespace.value inside MerossManager._build_mqtt_message: the
namespace argument may be None (GenericSubDevice.async_update passes its
unset _UPDATE_ALL_NAMESPACE through), and None has no attribute value. -/
def nsValue : Option Namespace → Except PyErr String
  | some n => .ok n.value
  | none => .error .attributeError

/-- ChannelInfo of meross_iot/controller/device.py: index, optional name,
optional type, master flag. -/
structure ChannelInfo where
  index : Nat
  name : Option String
  channel_type : Option String
  is_master_channel : Bool
deriving DecidableEq

/-- BaseDevice of meross_iot/controller/device.py, restricted to the
fields its accessors and channel lookup read. The Option fields hold the
kwargs values devName, deviceType, fmwareVersion and hdwareVersion, None
when the metadata was not supplied at construction. -/
structure BaseDevice where
  uuid : String
  devName : Option String
  deviceType : Option String
  fmwareVersion : Option String
  hdwareVersion : Option String
  onlineStatus : OnlineStatus
  channels : List ChannelInfo

/-- BaseDevice.name property: unknown if self._name is None else the name. -/
def BaseDevice.name (d : BaseDevice) : String :=
  match d.devName with
  | none => "unknown"
  | some s => s

/-- BaseDevice.type property: unknown if self._type is None else the type. -/
def BaseDevice.type (d : BaseDevice) : String :=
  match d.deviceType with
  | none => "unknown"
  | some s => s

/-- BaseDevice.firmware_version property: unknown if None else the value. -/
def BaseDevice.firmware_version (d : BaseDevice) : String :=
  match d.fmwareVersion with
  | none => "unknown"
  | some s => s

/-- BaseDevice.hardware_version property: unknown if None else the value. -/
def BaseDevice.hardware_version (d : BaseDevice) : String :=
  match d.hdwareVersion with
  | none => "unknown"
  | some s => s

/-- The channel_id_or_name argument of BaseDevice.lookup_channel: the
Python Union of int and str, dispatched on by isinstance. -/
inductive ChannelQuery where
  | byIndex (i : Nat) : ChannelQuery
  | byName (s : String) : ChannelQuery

/-- The per-channel test lookup_channel filters with: name equality for a
string query (a channel with name None never equals a string), index
equality for an integer query. -/
def channelMatches : ChannelQuery → ChannelInfo → Bool
  | .byName s, c => decide (c.name = some s)
  | .byIndex i, c => decide (c.index = i)

/-- BaseDevice.lookup_channel: filter self._channels by the query; return
the sole result when the filtered list has length exactly one, otherwise
raise ValueError (the Channel-Not-Found condition). -/
def BaseDevice.lookup_channel (d : BaseDevice) (q : ChannelQuery) :
    Except PyErr ChannelInfo :=
  match d.channels.filter (channelMatches q) with
  | [c] => .ok c
  | _ => .error .valueError

/-- The two online-status fields GenericSubDevice.online_status reads:
self._hub.online_status (the owning hub is a plain BaseDevice, so its
property returns its _online field) and the subordinate device own
_online field. -/
structure SubDeviceOnlineView where
  hubOnline : OnlineStatus
  ownOnline : OnlineStatus

/-- GenericSubDevice.online_status property: if the hub status differs
from ONLINE, return the hub status; otherwise return the subordinate own
last-reported status. -/
def GenericSubDevice.online_status (d : SubDeviceOnlineView) : OnlineStatus :=
  if d.hubOnline ≠ OnlineStatus.online then d.hubOnline else d.ownOnline

/-- Resolution outcome of the pending future a command awaits: the paho
callback resolved it with the whole parsed ack message (set_result), it was
resolved with an exception (set_exception), or no resolution arrived and
asyncio.wait_for expired. -/
inductive AckOutcome where
  | acked (message : JVal) : AckOutcome
  | errored (e : PyErr) : AckOutcome
  | timedOut : AckOutcome

/-- Python dict key assignment d[k] = fut on the key set of
_pending_messages_futures: a fresh key is appended, an existing key keeps
its position (its binding is overwritten, which the key set does not see). -/
def dictInsertKey (keys : List String) (k : String) : List String :=
  if keys.contains k then keys else keys ++ [k]

/-- MerossManager.async_execute_cmd composed with _async_send_and_wait_ack,
as a function of the pending-futures key set. Steps of the source: raise
UnconnectedError unless the MQTT client is connected; build the message
(_build_mqtt_message evaluates namespace.value, so a None namespace raises
AttributeError before any future is registered); register the fresh
message_id in _pending_messages_futures; publish and await the future with
a timeout, converting expiry into CommandTimeoutError; on success return
response.get with key payload. No path removes the registered entry from
_pending_messages_futures. -/
def MerossManager.async_execute_cmd (connected : Bool) (pending : List String)
    (message_id : String) (method : String) (ns : Option Namespace)
    (payload : JVal) (outcome : AckOutcome) :
    List String × Except PyErr JVal :=
  if connected = false then (pending, .error .unconnectedError)
  else
    match nsValue ns with
    | .error e => (pending, .error e)
    | .ok _ =>
      let pending1 := dictInsertKey pending message_id
      match outcome with
      | .timedOut => (pending1, .error .commandTimeoutError)
      | .errored e => (pending1, .error e)
      | .acked message =>
        match pyGet message "payload" with
        | .error e => (pending1, .error e)
        | .ok p => (pending1, .ok p)

/-- Action the ack branch of MerossManager._on_message performs on the
pending future of the acknowledged message. -/
inductive AckAction where
  | notAckCase : AckAction
  | droppedInvalidSignature : AckAction
  | noPendingFound : AckAction
  | setException (e : PyErr) : AckAction
  | setResult (message : JVal) : AckAction
  | unhandledMethod : AckAction

/-- Python message_method == some string, where the method read from the
header is an arbitrary JSON value. -/
def methodIs (m : JVal) (s : String) : Bool :=
  match m with
  | .str t => t = s
  | _ => false

/-- Python lookup of the messageId header value among the keys of
_pending_messages_futures (string keys, so a non-string id finds none). -/
def jvalIdIn (v : JVal) (pending : List String) : Bool :=
  match v with
  | .str s => pending.contains s
  | _ => false

/-- MerossManager._on_message restricted to its command-ack branch (case 2
of the source): parse the message, read header and verify the signature
(verify_message_signature lives in meross_iot/utilities/mqtt.py, not among
the staged files; its boolean verdict is the signature_ok argument, per the
spec a keyed-digest check that drops failing frames); when the destination
topic is the client response topic and the method is SETACK, GETACK or
ERROR, look up the pending future keyed by the messageId header: absent
means a logged no-op; for ERROR the source evaluates message.payload
(attribute access on the parsed dict) to build CommandError before
set_exception; for SETACK and GETACK it calls set_result with the whole
message. Frames matching neither the ack pattern nor the push pattern fall
to the logged notAckCase (the push branch is routed to the device registry
and is modelled separately). -/
def MerossManager._on_message (client_response_topic : String)
    (pending : List String) (signature_ok : Bool) (topic : String)
    (message : JVal) : Except PyErr AckAction := do
  let header ← pyIndex message "header"
  if signature_ok = false then
    pure .droppedInvalidSignature
  else
    let message_method ← pyGet header "method"
    if topic = client_response_topic ∧
        (methodIs message_method "SETACK" ∨ methodIs message_method "GETACK" ∨
         methodIs message_method "ERROR") then
      let message_id ← pyGet header "messageId"
      if jvalIdIn message_id pending then
        if methodIs message_method "ERROR" then do
          let p ← pyAttr message "payload"
          pure (.setException (.commandError p))
        else
          if methodIs message_method "SETACK" ∨ methodIs message_method "GETACK" then
            pure (.setResult message)
          else
            pure .unhandledMethod
      else
        pure .noPendingFound
    else
      pure .notAckCase

/-- BaseDevice.handle_push_notification: by design the base class handles
no push notification and returns False. -/
def BaseDevice.handle_push_notification (_ns : Namespace) (_data : JVal) : Bool :=
  false

/-- SystemOnlineMixin.handle_push_notification as a function of the _online
field it owns. On the System.Online namespace the source reads
data.get with key online into payload; a None payload is logged and left
unhandled; otherwise it reads payload.get with key online again into
online_data, builds OnlineStatus from online_data.get with key status,
stores it into self._online and marks the notification locally handled.
It then always chains to the parent handler (the base device, which
returns False) and returns the disjunction. -/
def SystemOnlineMixin.handle_push_notification (selfOnline : OnlineStatus)
    (ns : Namespace) (data : JVal) : Except PyErr (OnlineStatus × Bool) := do
  if ns = Namespace.systemOnline then
    let payload ← pyGet data "online"
    match payload with
    | .null =>
      pure (selfOnline, false || BaseDevice.handle_push_notification ns data)
    | _ => do
      let online_data ← pyGet payload "online"
      let statusJ ← pyGet online_data "status"
      let status ← onlineStatusOfJVal statusJ
      pure (status, true || BaseDevice.handle_push_notification ns data)
  else
    pure (selfOnline, false || BaseDevice.handle_push_notification ns data)

/-- Observable effect of a completed GenericSubDevice.async_update: the
method and payload of the hub-delegated command it sent, and the list of
response entries it forwarded to self.handle_push_notification (the
push-interpretation contract) as state updates. -/
structure SubUpdateEffect where
  method : String
  requestPayload : JVal
  applied : List JVal

/-- Loop body of GenericSubDevice.async_update over the entries of the
response list: read subdev_state.get with key id (AttributeError when the
entry is not a dict); entries whose id differs from the subordinate id are
skipped with continue; the first entry whose id matches is handed to
handle_push_notification and the loop breaks. -/
def applyMatchingEntry : List JVal → String → Except PyErr (List JVal)
  | [], _ => .ok []
  | e :: rest, sid =>
    match pyGet e "id" with
    | .error err => .error err
    | .ok idJ =>
      if (match idJ with | .str s => decide (s = sid) | _ => false) then
        .ok [e]
      else
        applyMatchingEntry rest sid

/-- GenericSubDevice.async_update. The source first tests whether the
concrete type left _UPDATE_ALL_NAMESPACE as None and logs an error saying
the update will not be performed, but the branch body is a bare pass, not
a return, so execution continues regardless; super().async_update is the
BaseDevice no-op; the subordinate then has its hub execute a GET command
on its _UPDATE_ALL_NAMESPACE with payload all = [ dict id = subdevice_id ]
(MerossManager.async_execute_cmd, which evaluates namespace.value and so
raises AttributeError when the namespace is None); from the response it
reads result.get with key all (iterating a None or non-list value raises
TypeError) and applies the first entry whose id matches, via
applyMatchingEntry. -/
def GenericSubDevice.async_update (update_all_namespace : Option Namespace)
    (subdevice_id : String) (connected : Bool) (pending : List String)
    (message_id : String) (outcome : AckOutcome) :
    List String × Except PyErr SubUpdateEffect :=
  let requestPayload :=
    JVal.obj [("all", JVal.arr [JVal.obj [("id", JVal.str subdevice_id)]])]
  match MerossManager.async_execute_cmd connected pending message_id "GET"
      update_all_namespace requestPayload outcome with
  | (p1, .error e) => (p1, .error e)
  | (p1, .ok result) =>
    match pyGet result "all" with
    | .error e => (p1, .error e)
    | .ok states =>
      match states with
      | .arr entries =>
        match applyMatchingEntry entries subdevice_id with
        | .error e => (p1, .error e)
        | .ok applied => (p1, .ok ⟨"GET", requestPayload, applied⟩)
      | _ => (p1, .error .typeError)

/-- An enrolled device as DeviceRegistry.find_all_by observes one: the
values of the accessors each filter reads (internal_id, uuid, type, name,
online_status), plus the class membership the isinstance filter tests,
made explicit as a tag set per the design note of the spec, and a released
flag recording that dismiss freed the device resources. -/
structure RegDevice where
  internal_id : String
  uuid : String
  devType : String
  devName : String
  onlineStatus : OnlineStatus
  classTags : List String
  released : Bool
deriving DecidableEq

/-- Modelled from the spec: device.dismiss() releases the resources a
device holds. The method is called by DeviceRegistry.relinquish_device but
defined in none of the staged files (the source marks it as to-implement),
so it is modelled as marking the device resources released. -/
def BaseDevice.dismiss (d : RegDevice) : RegDevice :=
  { d with released := true }

/-- Conditional filter stage of DeviceRegistry.find_all_by: each filter is
applied only when its argument is not None. -/
def filterWhen {α : Type} (o : Option α) (p : α → RegDevice → Bool)
    (l : List RegDevice) : List RegDevice :=
  match o with
  | none => l
  | some x => l.filter (p x)

/-- DeviceRegistry.find_all_by: starting from the registry values, filter
in the order of the source by internal_ids membership, device_uuids
membership, device_type equality, online_status equality, device_class
instance test (tag membership) and device_name equality; a None argument
applies no filter. -/
def DeviceRegistry.find_all_by (devices : List RegDevice)
    (device_uuids : Option (List String)) (internal_ids : Option (List String))
    (device_type : Option String) (device_class : Option String)
    (device_name : Option String) (online_status : Option OnlineStatus) :
    List RegDevice :=
  let res := filterWhen internal_ids (fun ids d => ids.contains d.internal_id) devices
  let res := filterWhen device_uuids (fun us d => us.contains d.uuid) res
  let res := filterWhen device_type (fun t d => d.devType = t) res
  let res := filterWhen online_status (fun s d => d.onlineStatus = s) res
  let res := filterWhen device_class (fun c d => d.classTags.contains c) res
  let res := filterWhen device_name (fun n d => d.devName = n) res
  res

/-- DeviceRegistry.enroll_device on the insertion-ordered entries of the
_devices_by_internal_id dict: an already-present composite identifier is a
logged no-op leaving the dict untouched, otherwise the device is added
under its internal_id. -/
def DeviceRegistry.enroll_device (reg : List (String × RegDevice))
    (device : RegDevice) : List (String × RegDevice) :=
  match alookup reg device.internal_id with
  | some _ => reg
  | none => reg ++ [(device.internal_id, device)]

/-- DeviceRegistry.relinquish_device: a device_id absent from the dict
raises ValueError (the Device-Not-Found condition); otherwise the device
is dismissed (resources released) and its entry deleted. Returns the
dismissed device together with the remaining registry. -/
def DeviceRegistry.relinquish_device (reg : List (String × RegDevice))
    (device_id : String) : Except PyErr (RegDevice × List (String × RegDevice)) :=
  match alookup reg device_id with
  | none => .error .valueError
  | some dev =>
    .ok (BaseDevice.dismiss dev, reg.filter (fun kv => kv.1 ≠ device_id))

/-! Helper notions and lemmas -/

/-- Whether a JSON value is a dictionary. -/
def JVal.isObj : JVal → Bool
  | .obj _ => true
  | _ => false

/-- Whether a response entry is a dictionary whose id key holds the given
subordinate identifier. -/
def entryIdIs (sid : String) : JVal → Bool
  | .obj fields =>
    match alookup fields "id" with
    | some (.str s) => s = sid
    | _ => false
  | _ => false

theorem list_contains_iff (l : List String) (a : String) :
    l.contains a = true ↔ a ∈ l :=
  List.elem_iff

theorem mem_dictInsertKey (keys : List String) (k : String) :
    k ∈ dictInsertKey keys k := by
  unfold dictInsertKey
  cases h : keys.contains k
  · simp [h]
  · simpa [h] using (list_contains_iff keys k).1 h

theorem contains_dictInsertKey (keys : List String) (k : String) :
    (dictInsertKey keys k).contains k = true :=
  (list_contains_iff _ _).2 (mem_dictInsertKey keys k)

theorem mem_filterWhen {α : Type} (o : Option α) (p : α → RegDevice → Bool)
    (l : List RegDevice) (d : RegDevice) :
    d ∈ filterWhen o p l ↔ (d ∈ l ∧ ∀ x, o = some x → p x d = true) := by
  cases o with
  | none => simp [filterWhen]
  | some x => simp [filterWhen, List.mem_filter]

theorem alookup_eq_none {α : Type} (l : List (String × α)) (k : String) :
    alookup l k = none ↔ k ∉ l.map Prod.fst := by
  induction l with
  | nil => simp [alookup]
  | cons kv rest ih =>
    by_cases h : kv.1 = k
    · simp [alookup, h]
    · simp [alookup, h, ih, Ne.symm h]

theorem applyMatchingEntry_eq_filter (entries : List JVal) (sid : String)
    (h : ∀ e ∈ entries, e.isObj = true) :
    applyMatchingEntry entries sid = .ok ((entries.filter (entryIdIs sid)).take 1) := by
  induction entries with
  | nil => rfl
  | cons e rest ih =>
    have he : e.isObj = true := h e (by simp)
    have hrest : ∀ x ∈ rest, x.isObj = true := fun x hx => h x (by simp [hx])
    cases e with
    | obj fields =>
      by_cases hid : entryIdIs sid (.obj fields) = true
      · have : (match (alookup fields "id").getD .null with
            | .str s => decide (s = sid) | _ => false) = true := by
          unfold entryIdIs at hid
          rcases hv : alookup fields "id" with _ | v
          · simp [hv] at hid
          · cases v <;> simp_all [hv]
        simp [applyMatchingEntry, pyGet, this, List.filter, hid]
      · have : (match (alookup fields "id").getD .null with
            | .str s => decide (s = sid) | _ => false) = false := by
          unfold entryIdIs at hid
          rcases hv : alookup fields "id" with _ | v
          · simp [hv]
          · cases v <;> simp_all [hv]
        simp [applyMatchingEntry, pyGet, this, List.filter, hid, ih hrest]
    | null => simp [JVal.isObj] at he
    | bool b => simp [JVal.isObj] at he
    | num n => simp [JVal.isObj] at he
    | str s => simp [JVal.isObj] at he
    | arr xs => simp [JVal.isObj] at he

/-! Claim theorems -/

/-- C1, counterexample to the claim as stated: issuing a command (connected
manager, empty correlation table, fresh message id m1) whose ack never
arrives within the timeout does resolve to CommandTimeoutError, but the
pending-futures entry keyed m1 is NOT removed: the resulting table still
holds m1, and a late-arriving SETACK for m1 afterwards finds the pending
entry and resolves it (set_result), rather than finding no entry. -/
theorem async_execute_cmd_timeout_entry_not_removed :
    MerossManager.async_execute_cmd true [] "m1" "GET" (some .systemAll)
      (JVal.obj []) .timedOut = (["m1"], .error .commandTimeoutError) ∧
    "m1" ∈ (MerossManager.async_execute_cmd true [] "m1" "GET" (some .systemAll)
      (JVal.obj []) .timedOut).1 ∧
    MerossManager._on_message "/app/u-a/subscribe"
      (MerossManager.async_execute_cmd true [] "m1" "GET" (some .systemAll)
        (JVal.obj []) .timedOut).1 true "/app/u-a/subscribe"
      (JVal.obj [("header", JVal.obj [("messageId", JVal.str "m1"),
                                      ("method", JVal.str "SETACK")]),
                 ("payload", JVal.obj [])]) =
      .ok (.setResult (JVal.obj [("header",
          JVal.obj [("messageId", JVal.str "m1"), ("method", JVal.str "SETACK")]),
          ("payload", JVal.obj [])])) := by
  refine ⟨rfl, ?_, rfl⟩
  simp [MerossManager.async_execute_cmd, nsValue, dictInsertKey]

/-- C1, amended: for every issued command whose acknowledgement does not
arrive within the timeout, the call resolves to CommandTimeoutError, but
the Correlation Table entry keyed by the message identifier remains in the
pending-futures map (no path removes it), so a late acknowledgement for
that identifier still finds a pending entry. -/
theorem async_execute_cmd_timeout_resolves_and_entry_persists
    (pending : List String) (message_id method : String) (n : Namespace)
    (payload : JVal) :
    (MerossManager.async_execute_cmd true pending message_id method (some n)
        payload .timedOut).2 = .error .commandTimeoutError ∧
    message_id ∈ (MerossManager.async_execute_cmd true pending message_id method
        (some n) payload .timedOut).1 ∧
    jvalIdIn (.str message_id) (MerossManager.async_execute_cmd true pending
        message_id method (some n) payload .timedOut).1 = true := by
  refine ⟨rfl, ?_, ?_⟩
  · simpa [MerossManager.async_execute_cmd, nsValue] using
      mem_dictInsertKey pending message_id
  · simpa [MerossManager.async_execute_cmd, nsValue, jvalIdIn] using
      contains_dictInsertKey pending message_id

/-- C2: delivering a push notification with namespace System.Online and
payload online.status = 1 to the online mixin of a device raises
AttributeError instead of setting the online status: the handler extracts
the key online from the payload and then reads the key online again from
the result, obtaining None, on which the final get call fails. The state
and the handled flag are never produced. -/
theorem system_online_push_scenario_raises_attribute_error
    (selfOnline : OnlineStatus) :
    SystemOnlineMixin.handle_push_notification selfOnline Namespace.systemOnline
      (JVal.obj [("online", JVal.obj [("status", JVal.num 1)])]) =
      .error .attributeError := rfl

/-- C3: on the client response topic, a verified SETACK frame whose
messageId has a pending entry resolves that entry with the message, but a
verified ERROR frame raises AttributeError while building the CommandError
(the source evaluates message.payload, an attribute access on the parsed
dict), so the pending call is never resolved with the protocol error. -/
theorem on_message_error_ack_raises_attribute_error :
    MerossManager._on_message "/app/u-a/subscribe" ["abc1"] true
      "/app/u-a/subscribe"
      (JVal.obj [("header", JVal.obj [("messageId", JVal.str "abc1"),
                                      ("method", JVal.str "ERROR")]),
                 ("payload", JVal.obj [("error", JVal.num 5)])]) =
      .error .attributeError ∧
    MerossManager._on_message "/app/u-a/subscribe" ["abc1"] true
      "/app/u-a/subscribe"
      (JVal.obj [("header", JVal.obj [("messageId", JVal.str "abc1"),
                                      ("method", JVal.str "SETACK")]),
                 ("payload", JVal.obj [("ok", JVal.num 1)])]) =
      .ok (.setResult (JVal.obj [("header",
          JVal.obj [("messageId", JVal.str "abc1"), ("method", JVal.str "SETACK")]),
          ("payload", JVal.obj [("ok", JVal.num 1)])])) :=
  ⟨rfl, rfl⟩

/-- C4: a subordinate whose concrete type leaves _UPDATE_ALL_NAMESPACE as
None does not stop after logging: async_update falls through (the branch
ends in pass, not return), enters the hub-delegated command path and
raises AttributeError out of namespace.value on None, registering no
pending entry. This contradicts performing no update and raising no
exception. -/
theorem subdevice_update_without_all_namespace_raises
    (sid message_id : String) (pending : List String) (outcome : AckOutcome) :
    GenericSubDevice.async_update none sid true pending message_id outcome =
      (pending, .error .attributeError) := rfl

/-- C5, counterexample to the claim as stated: a subordinate whose own
status is online under a hub whose status is unknown (not online) has
effective online status unknown, not offline. -/
theorem subdevice_online_status_hub_unknown_not_offline :
    GenericSubDevice.online_status ⟨.unknown, .online⟩ = .unknown ∧
    OnlineStatus.unknown ≠ OnlineStatus.online ∧
    OnlineStatus.unknown ≠ OnlineStatus.offline := by
  refine ⟨rfl, ?_, ?_⟩ <;> decide

/-- C5, amended: the effective online status of a subordinate equals the
online status of its owning hub whenever the hub is not online, and
otherwise equals the subordinate own last-reported status. -/
theorem subdevice_online_status_follows_hub (d : SubDeviceOnlineView) :
    (d.hubOnline ≠ OnlineStatus.online →
       GenericSubDevice.online_status d = d.hubOnline) ∧
    (d.hubOnline = OnlineStatus.online →
       GenericSubDevice.online_status d = d.ownOnline) := by
  constructor <;> intro h <;> simp [GenericSubDevice.online_status, h]

/-- C6: refreshing a subordinate with a configured all namespace has the
hub execute a GET command whose payload is all = [ dict id = sid ], and of
the entries in the response list only the first whose id equals the
subordinate identifier is forwarded to its push-interpretation contract;
every forwarded entry carries that identifier, so entries with other ids
are never applied. -/
theorem subdevice_update_applies_only_matching_entry
    (n : Namespace) (sid : String) (pending : List String) (message_id : String)
    (entries : List JVal) (h : ∀ e ∈ entries, e.isObj = true) :
    GenericSubDevice.async_update (some n) sid true pending message_id
      (.acked (JVal.obj [("payload", JVal.obj [("all", JVal.arr entries)])])) =
      (dictInsertKey pending message_id,
       .ok ⟨"GET", JVal.obj [("all", JVal.arr [JVal.obj [("id", JVal.str sid)]])],
            (entries.filter (entryIdIs sid)).take 1⟩) ∧
    ∀ e ∈ (entries.filter (entryIdIs sid)).take 1, entryIdIs sid e = true := by
  constructor
  · simp [GenericSubDevice.async_update, MerossManager.async_execute_cmd,
      nsValue, pyGet, alookup, applyMatchingEntry_eq_filter entries sid h]
  · intro e he
    exact (List.mem_filter.1 (List.mem_of_mem_take he)).2

/-- C6 witness: a subordinate SD1 refreshed against a response listing
entries for SD2, SD1 and a second SD1 record applies exactly the first SD1
entry. -/
theorem subdevice_update_applies_only_matching_entry_witness :
    GenericSubDevice.async_update (some .hubSensorAll) "SD1" true [] "m1"
      (.acked (JVal.obj [("payload", JVal.obj [("all", JVal.arr
        [JVal.obj [("id", JVal.str "SD2"), ("x", JVal.num 0)],
         JVal.obj [("id", JVal.str "SD1"), ("temp", JVal.num 20)],
         JVal.obj [("id", JVal.str "SD1"), ("temp", JVal.num 99)]])])])) =
      (["m1"],
       .ok ⟨"GET", JVal.obj [("all", JVal.arr [JVal.obj [("id", JVal.str "SD1")]])],
            [JVal.obj [("id", JVal.str "SD1"), ("temp", JVal.num 20)]]⟩) :=
  (subdevice_update_applies_only_matching_entry .hubSensorAll "SD1" [] "m1"
    [JVal.obj [("id", JVal.str "SD2"), ("x", JVal.num 0)],
     JVal.obj [("id", JVal.str "SD1"), ("temp", JVal.num 20)],
     JVal.obj [("id", JVal.str "SD1"), ("temp", JVal.num 99)]]
    (by intro e he; fin_cases he <;> rfl)).1.trans rfl

/-- C7: channel lookup by index or by name returns a channel of the device
matching the query exactly when the number of matching channels is one,
and raises ValueError (Channel-Not-Found) whenever zero or more than one
channel matches. -/
theorem lookup_channel_unique_match (d : BaseDevice) (q : ChannelQuery) :
    (∀ c, BaseDevice.lookup_channel d q = .ok c →
       c ∈ d.channels ∧ channelMatches q c = true) ∧
    (d.channels.countP (channelMatches q) = 1 →
       ∃ c, BaseDevice.lookup_channel d q = .ok c) ∧
    (d.channels.countP (channelMatches q) ≠ 1 →
       BaseDevice.lookup_channel d q = .error .valueError) := by
  have hc : d.channels.countP (channelMatches q) =
      (d.channels.filter (channelMatches q)).length :=
    List.countP_eq_length_filter _ _
  rcases hl : d.channels.filter (channelMatches q) with _ | ⟨c1, _ | ⟨c2, t⟩⟩
  · refine ⟨?_, ?_, ?_⟩
    · intro c hcq
      simp [BaseDevice.lookup_channel, hl] at hcq
    · intro hcount
      rw [hc, hl] at hcount
      simp at hcount
    · intro _
      simp [BaseDevice.lookup_channel, hl]
  · refine ⟨?_, ?_, ?_⟩
    · intro c hcq
      simp [BaseDevice.lookup_channel, hl] at hcq
      subst hcq
      have hmemf : c1 ∈ d.channels.filter (channelMatches q) := by simp [hl]
      exact ⟨(List.mem_filter.1 hmemf).1, (List.mem_filter.1 hmemf).2⟩
    · intro _
      exact ⟨c1, by simp [BaseDevice.lookup_channel, hl]⟩
    · intro hcount
      rw [hc, hl] at hcount
      simp at hcount
  · refine ⟨?_, ?_, ?_⟩
    · intro c hcq
      simp [BaseDevice.lookup_channel, hl] at hcq
    · intro hcount
      rw [hc, hl] at hcount
      simp [List.length_cons] at hcount
    · intro _
      simp [BaseDevice.lookup_channel, hl]

/-- C8: find_all_by with no predicates returns exactly the enrolled
devices, and with any combination of predicates a device is in the result
exactly when it is enrolled and satisfies every supplied predicate (the
logical AND). -/
theorem find_all_by_is_conjunction_of_filters (devices : List RegDevice)
    (device_uuids internal_ids : Option (List String))
    (device_type device_class device_name : Option String)
    (online_status : Option OnlineStatus) :
    DeviceRegistry.find_all_by devices none none none none none none = devices ∧
    ∀ d, d ∈ DeviceRegistry.find_all_by devices device_uuids internal_ids
            device_type device_class device_name online_status ↔
      (d ∈ devices ∧
       (∀ us, device_uuids = some us → d.uuid ∈ us) ∧
       (∀ ids, internal_ids = some ids → d.internal_id ∈ ids) ∧
       (∀ t, device_type = some t → d.devType = t) ∧
       (∀ c, device_class = some c → c ∈ d.classTags) ∧
       (∀ nm, device_name = some nm → d.devName = nm) ∧
       (∀ s, online_status = some s → d.onlineStatus = s)) := by
  refine ⟨rfl, ?_⟩
  intro d
  simp only [DeviceRegistry.find_all_by, mem_filterWhen, list_contains_iff,
    decide_eq_true_eq]
  tauto

/-- C9: enrolling a device whose composite identifier is already present
leaves the registry unchanged with exactly one entry for that identifier;
relinquishing an absent identifier raises ValueError (Device-Not-Found);
relinquishing a present identifier dismisses that device (its resources
are released) and removes exactly its entry. -/
theorem registry_duplicate_enroll_and_relinquish
    (reg : List (String × RegDevice)) (device : RegDevice) (device_id : String)
    (hnd : (reg.map Prod.fst).Nodup) :
    (device.internal_id ∈ reg.map Prod.fst →
       DeviceRegistry.enroll_device reg device = reg ∧
       ((DeviceRegistry.enroll_device reg device).map Prod.fst).count
         device.internal_id = 1) ∧
    (device_id ∉ reg.map Prod.fst →
       DeviceRegistry.relinquish_device reg device_id = .error .valueError) ∧
    (device_id ∈ reg.map Prod.fst →
       ∃ dev reg1, DeviceRegistry.relinquish_device reg device_id = .ok (dev, reg1) ∧
         dev.released = true ∧
         device_id ∉ reg1.map Prod.fst ∧
         (∀ kv, kv ∈ reg1 ↔ kv ∈ reg ∧ kv.1 ≠ device_id)) := by
  refine ⟨?_, ?_, ?_⟩
  · intro hmem
    rcases hv : alookup reg device.internal_id with _ | v
    · exact absurd hmem ((alookup_eq_none reg device.internal_id).1 hv)
    · refine ⟨by simp [DeviceRegistry.enroll_device, hv], ?_⟩
      simp only [DeviceRegistry.enroll_device, hv]
      exact List.count_eq_one_of_mem hnd hmem
  · intro habs
    have hv : alookup reg device_id = none := (alookup_eq_none reg device_id).2 habs
    simp [DeviceRegistry.relinquish_device, hv]
  · intro hmem
    rcases hv : alookup reg device_id with _ | v
    · exact absurd hmem ((alookup_eq_none reg device_id).1 hv)
    · refine ⟨BaseDevice.dismiss v, reg.filter (fun kv => kv.1 ≠ device_id),
        by simp [DeviceRegistry.relinquish_device, hv], rfl, ?_, ?_⟩
      · intro hbad
        rcases List.mem_map.1 hbad with ⟨kv, hkv, hfst⟩
        have := (List.mem_filter.1 hkv).2
        simp [hfst] at this
      · intro kv
        simp [List.mem_filter]

/-- C9 witness: a one-entry registry keyed a: re-enrolling the same device
is a no-op and relinquishing the absent key zzz raises ValueError. -/
theorem registry_duplicate_enroll_and_relinquish_witness :
    DeviceRegistry.enroll_device
      [("a", ⟨"a", "u1", "mss310", "plug", .online, ["BaseDevice"], false⟩)]
      ⟨"a", "u1", "mss310", "plug", .online, ["BaseDevice"], false⟩ =
      [("a", ⟨"a", "u1", "mss310", "plug", .online, ["BaseDevice"], false⟩)] ∧
    DeviceRegistry.relinquish_device
      [("a", ⟨"a", "u1", "mss310", "plug", .online, ["BaseDevice"], false⟩)]
      "zzz" = .error .valueError := by
  have h := registry_duplicate_enroll_and_relinquish
    [("a", ⟨"a", "u1", "mss310", "plug", .online, ["BaseDevice"], false⟩)]
    ⟨"a", "u1", "mss310", "plug", .online, ["BaseDevice"], false⟩ "zzz"
    (by decide)
  exact ⟨(h.1 (by decide)).1, h.2.1 (by decide)⟩

/-- C10: the name, type, firmware-version and hardware-version accessors of
a device return the literal string unknown whenever the corresponding
construction metadata is None, and the supplied string otherwise, so no
accessor ever yields an absent value. -/
theorem base_device_accessors_default_unknown (d : BaseDevice) :
    ((d.devName = none → BaseDevice.name d = "unknown") ∧
     (∀ s, d.devName = some s → BaseDevice.name d = s)) ∧
    ((d.deviceType = none → BaseDevice.type d = "unknown") ∧
     (∀ s, d.deviceType = some s → BaseDevice.type d = s)) ∧
    ((d.fmwareVersion = none → BaseDevice.firmware_version d = "unknown") ∧
     (∀ s, d.fmwareVersion = some s → BaseDevice.firmware_version d = s)) ∧
    ((d.hdwareVersion = none → BaseDevice.hardware_version d = "unknown") ∧
     (∀ s, d.hdwareVersion = some s → BaseDevice.hardware_version d = s)) := by
  refine ⟨⟨?_, ?_⟩, ⟨?_, ?_⟩, ⟨?_, ?_⟩, ⟨?_, ?_⟩⟩
  · intro h; simp [BaseDevice.name, h]
  · intro s h; simp [BaseDevice.name, h]
  · intro h; simp [BaseDevice.type, h]
  · intro s h; simp [BaseDevice.type, h]
  · intro h; simp [BaseDevice.firmware_version, h]
  · intro s h; simp [BaseDevice.firmware_version, h]
  · intro h; simp [BaseDevice.hardware_version, h]
  · intro s h; simp [BaseDevice.hardware_version, h]

end MerossIot
